import Mathlib

set_option maxRecDepth 100000

/-!
Verification of the macOS pledge()/unveil() sandbox polyfill.

Two layers of the source are embedded:

* namespace `Min` — the shipped minimal implementation in
  `libc/calls/pledge-xnu.c` (`generate_sbpl_stdio`, `apply_sandbox_xnu`,
  `sys_pledge_xnu`);
* namespace `Ref` — the reference design listings in
  `docs/pledge-unveil-macos-polyfill.md` (`generate_sbpl_profile`,
  `apply_sandbox_xnu`, `sys_pledge_xnu`, `sys_unveil_xnu`).

The C `snprintf`-accumulation with a running `pos` and `if (pos >= outsize)
return -1;` checks is embedded by building the full output string and
comparing its length against the buffer size: in the C code `pos` always
equals the untruncated length of everything emitted so far, so the check
`pos >= outsize` is exactly `out.length >= outsize`.

The platform primitive `sandbox_init_with_parameters` is a weak import and
is modelled as an `Option` of a function from the profile text to the
result pair `(rc, error message)`; `none` models the symbol being absent at
link time.  Observability signals (`STRACE`/`kprintf` messages) that the
code emits on its decision paths are modelled by the `Trace` log.
-/

/-- Result of a polyfill entry point, following the C conventions:
`ok` is `return 0`; `eperm`/`enomem`/`enosys`/`einval` are the errno-setting
helpers `eperm()`, `enomem()`, `enosys()`, `einval()`; `platformFail` is the
bare `return -1` after `sandbox_init_with_parameters` rejects the profile. -/
inductive SysRes where
  | ok
  | eperm
  | enomem
  | enosys
  | einval
  | platformFail
deriving DecidableEq, Repr

/-- Observability signals emitted on the decision paths of the C code
(`STRACE`/`kprintf` messages). -/
inductive Trace where
  | primUnavailable
  | onlyStdioSupported
  | profileTooLarge
  | initFailed (msg : Option String)
  | applied
deriving DecidableEq, Repr

/-- Behaviour of `sandbox_init_with_parameters`: profile text to
`(return code, error buffer)`. -/
abbrev PrimFun := String → Int × Option String

/-- The weakly imported platform primitive: `none` means the symbol is
absent at link time. -/
abbrev Prim := Option PrimFun

/-- Result record of one call into the polyfill: the state after the call,
the returned value, how many times the platform primitive was invoked, how
many times `apply_sandbox_xnu` was entered, and the emitted log. -/
structure Step (σ : Type) where
  state : σ
  res : SysRes
  primCalls : Nat
  applyCalls : Nat
  log : List Trace
deriving DecidableEq

/-- PROMISE_STDIO has index 0 in the promise enumeration. -/
def PROMISE_STDIO : Nat := 0

/-- Membership test `strchr(perms, c)` on the stored permission string. -/
def strHasChar (s : String) (c : Char) : Bool := s.data.contains c

namespace Min

/-- SBPL_MAX_SIZE in `libc/calls/pledge-xnu.c`. -/
def SBPL_MAX_SIZE : Nat := 4096

/-- Thread-local `XnuSandboxState` of the minimal implementation
(`libc/calls/pledge-xnu.c`). -/
structure MinState where
  promises : Nat
  pledge_called : Bool
  sandbox_active : Bool
deriving DecidableEq, Repr

/-- Initial value of the minimal `XnuSandboxState`: inverted mask `-1UL`
(everything denied), no pledge yet, sandbox inactive. -/
def initState : MinState :=
  { promises := 2 ^ 64 - 1, pledge_called := false, sandbox_active := false }

/-- The constant profile text emitted by `generate_sbpl_stdio`. -/
def stdioProfileText : String :=
  ";; Minimal pledge(\"stdio\") implementation for macOS\n" ++
  "(version 1)\n" ++
  "(deny default)\n" ++
  "\n" ++
  ";; Allow self-execution\n" ++
  "(allow process-exec (literal (param \"PROCESS_PATH\")))\n" ++
  "\n" ++
  ";; PROMISE_STDIO: Basic I/O operations\n" ++
  "(allow file-read* file-write*\n" ++
  "  (literal \"/dev/stdin\" \"/dev/stdout\" \"/dev/stderr\"\n" ++
  "           \"/dev/null\" \"/dev/zero\" \"/dev/urandom\"\n" ++
  "           \"/dev/random\" \"/dev/dtracehelper\"))\n" ++
  "\n" ++
  ";; System calls needed for basic operation\n" ++
  "(allow sysctl-read)\n" ++
  "(allow process-fork)\n" ++
  "(allow mach-lookup\n" ++
  "  (global-name \"com.apple.system.logger\"\n" ++
  "               \"com.apple.system.notification_center\"))\n" ++
  "\n" ++
  ";; Memory operations\n" ++
  "(allow mach-priv-host-port)\n" ++
  "\n"

/-- `generate_sbpl_stdio`: emits the constant stdio profile, failing when
its length reaches the buffer size (the `if (pos >= outsize) return -1`
check). -/
def generate_sbpl_stdio : Option String :=
  if SBPL_MAX_SIZE ≤ stdioProfileText.length then none else some stdioProfileText

/-- `apply_sandbox_xnu` of `libc/calls/pledge-xnu.c`: probe the weak
symbol, short-circuit when already active, require the stdio promise,
generate the profile, and invoke the primitive. -/
def apply_sandbox_xnu (prim : Prim) (s : MinState) : Step MinState :=
  match prim with
  | none => ⟨s, .ok, 0, 1, [.primUnavailable]⟩
  | some p =>
    if s.sandbox_active then ⟨s, .ok, 0, 1, []⟩
    else if s.promises.testBit PROMISE_STDIO then
      ⟨s, .enosys, 0, 1, [.onlyStdioSupported]⟩
    else
      match generate_sbpl_stdio with
      | none => ⟨s, .enomem, 0, 1, [.profileTooLarge]⟩
      | some profile =>
        let r := p profile
        if r.1 = 0 then
          ⟨{ s with sandbox_active := true }, .ok, 1, 1, [.applied]⟩
        else
          ⟨s, .platformFail, 1, 1, [.initFailed r.2]⟩

/-- `sys_pledge_xnu` of `libc/calls/pledge-xnu.c`: reject once active,
store the inverted mask and the pledge-called flag, apply immediately.
The `mode` flag of the C signature is ignored by the implementation
(`(void)mode`) and omitted here. -/
def sys_pledge_xnu (prim : Prim) (ipromises : Nat) (s : MinState) : Step MinState :=
  if s.sandbox_active then ⟨s, .eperm, 0, 0, []⟩
  else
    apply_sandbox_xnu prim { s with promises := ipromises, pledge_called := true }

/-- `n` successive invocations of `apply_sandbox_xnu`, collecting the
result of each invocation and the total number of primitive calls. -/
def applyN (prim : Prim) : Nat → MinState → MinState × List SysRes × Nat
  | 0, s => (s, [], 0)
  | Nat.succ n, s =>
    let o := apply_sandbox_xnu prim s
    let r := applyN prim n o.state
    (r.1, o.res :: r.2.1, o.primCalls + r.2.2)

end Min

namespace Ref

/-- SBPL_MAX_SIZE in the reference `sbpl-generator.c` listing (16 KiB). -/
def SBPL_MAX_SIZE : Nat := 16384

/-- PATH_MAX used by the stored `paths[256]` entries. -/
def PATH_MAX : Nat := 4096

/-- One `struct unveil_path` entry: stored path and permission string. -/
structure UnveilPath where
  path : String
  perms : String
deriving DecidableEq, Repr

/-- Thread-local `XnuSandboxState` of the reference design. -/
structure RefState where
  promises : Nat
  pledge_called : Bool
  paths : List UnveilPath
  unveil_locked : Bool
  sandbox_active : Bool
  error_msg : Option String
deriving DecidableEq, Repr

/-- Initial `XnuSandboxState` of the reference design. -/
def initState : RefState :=
  { promises := 2 ^ 64 - 1, pledge_called := false, paths := [],
    unveil_locked := false, sandbox_active := false, error_msg := none }

/-- Number of promise identifiers (`PROMISE_LEN_`), indices following the
order of the `kPledgeToSBPL` table in the design document with
`PROMISE_STDIO = 0`. -/
def PROMISE_LEN : Nat := 23

/-- The `kPledgeToSBPL` mapping table: promise index to SBPL fragment. -/
def kPledgeToSBPL : Nat → String
  | 0 =>
    "(allow file-read* file-write*\n" ++
    "  (literal \"/dev/stdin\" \"/dev/stdout\" \"/dev/stderr\"\n" ++
    "           \"/dev/null\" \"/dev/zero\" \"/dev/urandom\"))\n" ++
    "(allow sysctl-read)\n" ++
    "(allow process-fork)\n" ++
    "(allow mach-lookup (global-name \"com.apple.system.logger\"))\n"
  | 1 =>
    "(allow file-read*)\n" ++
    "(allow file-read-metadata)\n"
  | 2 =>
    "(allow file-write*)\n" ++
    "(allow file-write-data)\n" ++
    "(allow file-write-flags)\n" ++
    "(allow file-write-mode)\n" ++
    "(allow file-write-owner)\n"
  | 3 =>
    "(allow file-write-create)\n" ++
    "(allow file-write-unlink)\n" ++
    "(allow file-link)\n" ++
    "(allow file-rename)\n"
  | 4 =>
    "(allow file-write-create\n" ++
    "  (vnode-type BLOCK-DEVICE CHARACTER-DEVICE))\n"
  | 5 =>
    "(allow file-lock)\n"
  | 6 =>
    "(allow file-write-mode)\n" ++
    "(allow file-write-owner)\n" ++
    "(allow file-write-times)\n" ++
    "(allow file-write-flags)\n"
  | 7 =>
    "(allow network-outbound)\n" ++
    "(allow network-inbound)\n" ++
    "(allow network-bind)\n" ++
    "(allow system-socket)\n"
  | 8 =>
    "(allow network-inbound)\n" ++
    "(allow network-bind)\n"
  | 9 =>
    "(allow network* (local ip))\n" ++
    "(allow ipc-posix-shm)\n" ++
    "(allow ipc-posix-sem)\n" ++
    "(allow ipc-sysv-shm)\n"
  | 10 =>
    "(allow network-outbound\n" ++
    "  (remote udp \"*:53\"))\n" ++
    "(allow file-read*\n" ++
    "  (literal \"/etc/resolv.conf\" \"/etc/hosts\"\n" ++
    "           \"/private/var/run/resolv.conf\"))\n" ++
    "(allow mach-lookup\n" ++
    "  (global-name \"com.apple.system.DirectoryService.libinfo_v1\"\n" ++
    "               \"com.apple.system.notification_center\"))\n"
  | 11 =>
    "(allow ioctl-set-attributes)\n" ++
    "(allow file-ioctl\n" ++
    "  (literal \"/dev/tty\" \"/dev/console\"))\n"
  | 12 =>
    "(allow ipc-posix-shm-read-data)\n"
  | 13 =>
    "(allow ipc-posix-shm-write-data)\n"
  | 14 =>
    "(allow process-fork)\n" ++
    "(allow process-exec)\n" ++
    "(allow signal)\n" ++
    "(allow sysctl-write\n" ++
    "  (sysctl-name \"kern.proc.*\"))\n"
  | 15 =>
    "(allow process-exec)\n" ++
    "(allow file-map-executable)\n"
  | 16 =>
    "(allow process-setid)\n" ++
    "(allow system-audit)\n"
  | 17 => ""
  | 18 =>
    "(allow system-set-time)\n"
  | 19 =>
    "(allow file-map-executable)\n" ++
    "(allow mach-per-user-lookup)\n" ++
    "(allow process-codesigning-status*)\n"
  | 20 =>
    "(allow sysctl-read\n" ++
    "  (sysctl-name \"vm.*\" \"kern.boottime\" \"kern.osversion\"))\n" ++
    "(allow file-read*\n" ++
    "  (subpath \"/System/Library\"))\n"
  | 21 =>
    "(allow file-read* file-write*\n" ++
    "  (subpath \"/tmp\" \"/var/tmp\"\n" ++
    "           (param \"TMPDIR\")))\n"
  | 22 =>
    "(allow file-write-owner)\n"
  | _ => ""

/-- Fixed header of `generate_sbpl_profile`: default-deny plus the
self-execution allowance. -/
def sbplHeader : String :=
  ";; Auto-generated by pledge/unveil polyfill\n" ++
  "(version 1)\n" ++
  "(deny default)\n" ++
  "\n" ++
  ";; Allow self-execution\n" ++
  "(allow process-exec (literal (param \"PROCESS_PATH\")))\n" ++
  "\n"

/-- Comment line opening the pledge-promises section. -/
def promisesComment : String := ";; Pledge promises\n"

/-- Text emitted when `pledge()` was never called: legacy allow-everything. -/
def allowDefaultText : String := "(allow default)\n\n"

/-- Comment line opening the unveil section. -/
def unveilComment : String := ";; Unveil filesystem restrictions\n"

/-- Fragment emitted when unveil was locked with zero paths: explicit
deny of all filesystem access. -/
def denyFsText : String :=
  ";; No filesystem access (unveil locked with no paths)\n" ++
  "(deny file-read* file-write*)\n"

/-- Per-path read fragment. -/
def readFrag (p : String) : String :=
  "(allow file-read* (subpath \"" ++ p ++ "\"))\n"

/-- Per-path write fragment. -/
def writeFrag (p : String) : String :=
  "(allow file-write* (subpath \"" ++ p ++ "\"))\n"

/-- Per-path execute fragment (one `snprintf` emitting two allows). -/
def execFrag (p : String) : String :=
  "(allow file-map-executable (subpath \"" ++ p ++ "\"))\n" ++
  "(allow process-exec* (subpath \"" ++ p ++ "\"))\n"

/-- Per-path create fragment (one `snprintf` emitting four allows). -/
def createFrag (p : String) : String :=
  "(allow file-write-create (subpath \"" ++ p ++ "\"))\n" ++
  "(allow file-write-unlink (subpath \"" ++ p ++ "\"))\n" ++
  "(allow file-link (subpath \"" ++ p ++ "\"))\n" ++
  "(allow file-rename (subpath \"" ++ p ++ "\"))\n"

/-- Append followed by the `if (pos >= outsize) return -1;` check. -/
def checkedAppend (o s : String) : Option String :=
  let o2 := o ++ s
  if SBPL_MAX_SIZE ≤ o2.length then none else some o2

/-- Short-circuiting fold used for the generation loops. -/
def optFold (f : String → α → Option String) : List α → String → Option String
  | [], o => some o
  | a :: l, o =>
    match f o a with
    | none => none
    | some o2 => optFold f l o2

/-- One iteration of the promise loop: append the fragment of promise `i`
when the bit is cleared in the inverted mask and the fragment is
non-empty, with the overflow check. -/
def pledgeStep (m : Nat) (o : String) (i : Nat) : Option String :=
  if !m.testBit i && !(kPledgeToSBPL i == "") then checkedAppend o (kPledgeToSBPL i)
  else some o

/-- The `for (i = 0; i < PROMISE_LEN_; i++)` promise loop. -/
def pledgeLoop (m : Nat) (o : String) : Option String :=
  optFold (pledgeStep m) (List.range PROMISE_LEN) o

/-- One conditional per-permission append of the unveil loop. -/
def permStep (cond : Bool) (frag : String) (o : String) : Option String :=
  if cond then checkedAppend o frag else some o

/-- Processing of one stored unveil rule: the four conditional appends
with their overflow checks, in the fixed order r, w, x, c. -/
def ruleStep (o : String) (u : UnveilPath) : Option String :=
  (permStep (strHasChar u.perms 'r') (readFrag u.path) o).bind fun o1 =>
  (permStep (strHasChar u.perms 'w') (writeFrag u.path) o1).bind fun o2 =>
  (permStep (strHasChar u.perms 'x') (execFrag u.path) o2).bind fun o3 =>
  permStep (strHasChar u.perms 'c') (createFrag u.path) o3

/-- The `for (i = 0; i < npaths; i++)` unveil loop. -/
def ruleLoop (ps : List UnveilPath) (o : String) : Option String :=
  optFold ruleStep ps o

/-- The pledge section of the generator: when `pledge()` was called, the
comment line, the promise loop, and the trailing newline; otherwise the
legacy allow-everything text. -/
def pledgePart (s : RefState) (o1 : String) : Option String :=
  if s.pledge_called then
    match pledgeLoop s.promises (o1 ++ promisesComment) with
    | none => none
    | some o2 => some (o2 ++ "\n")
  else some (o1 ++ allowDefaultText)

/-- `generate_sbpl_profile` of the reference `sbpl-generator.c` listing:
header, pledge section (or legacy allow-everything), unveil section (or
deny-all when locked with no paths). -/
def generate_sbpl_profile (s : RefState) : Option String :=
  match checkedAppend "" sbplHeader with
  | none => none
  | some o1 =>
    match pledgePart s o1 with
    | none => none
    | some o3 =>
      if 0 < s.paths.length then ruleLoop s.paths (o3 ++ unveilComment)
      else if s.unveil_locked then some (o3 ++ denyFsText)
      else some o3

/-- `apply_sandbox_xnu` of the reference design.  The availability probe
for the weakly imported `sandbox_init_with_parameters` is taken from the
shipped implementation (`libc/calls/pledge-xnu.c`, the `if
(!sandbox_init_with_parameters)` early return); the remainder follows the
design-document listing: short-circuit when already active, generate the
profile (ENOMEM on overflow), invoke the primitive, record the error
message on rejection, mark active on success. -/
def apply_sandbox_xnu (prim : Prim) (s : RefState) : Step RefState :=
  match prim with
  | none => ⟨s, .ok, 0, 1, [.primUnavailable]⟩
  | some p =>
    if s.sandbox_active then ⟨s, .ok, 0, 1, []⟩
    else
      match generate_sbpl_profile s with
      | none => ⟨s, .enomem, 0, 1, [.profileTooLarge]⟩
      | some profile =>
        let r := p profile
        if r.1 = 0 then
          ⟨{ s with sandbox_active := true }, .ok, 1, 1, [.applied]⟩
        else
          match r.2 with
          | some e => ⟨{ s with error_msg := some e }, .platformFail, 1, 1, [.initFailed (some e)]⟩
          | none => ⟨s, .platformFail, 1, 1, [.initFailed none]⟩

/-- `sys_pledge_xnu` of the reference design: reject once active, store
the inverted mask and the pledge-called flag, then apply immediately when
unveil is already locked, otherwise defer.  The `mode` flag of the C
signature is unused by the listing and omitted here. -/
def sys_pledge_xnu (prim : Prim) (ipromises : Nat) (s : RefState) : Step RefState :=
  if s.sandbox_active then ⟨s, .eperm, 0, 0, []⟩
  else
    let s2 := { s with promises := ipromises, pledge_called := true }
    if s2.unveil_locked then apply_sandbox_xnu prim s2
    else ⟨s2, .ok, 0, 0, []⟩

/-- Truncating copy into a fixed-size buffer of `n` bytes (`strlcpy` /
`snprintf`): keeps the first `n - 1` characters. -/
def strTrunc (s : String) (n : Nat) : String := ⟨s.data.take (n - 1)⟩

/-- Resolution of the declared path into the stored `char path[PATH_MAX]`:
relative paths are prefixed by the current working directory (acquired at
declaration time and passed here as `cwd`, with `getcwd` assumed to
succeed), absolute paths are copied; both truncate at `PATH_MAX`. -/
def resolvePath (cwd p : String) : String :=
  if p.data.head? = some '/' then strTrunc p PATH_MAX
  else strTrunc (cwd ++ "/" ++ p) PATH_MAX

/-- `sys_unveil_xnu` of the reference design (`unveil-xnu.c` listing):
the `(NULL, NULL)` lock sentinel sets the lock flag and applies; a
mismatched nil pairing is EINVAL; after the lock EPERM; a full rule table
(256) is ENOMEM; permission characters outside `rwxc` are EINVAL;
otherwise the resolved path and the permissions are stored. -/
def sys_unveil_xnu (prim : Prim) (path perms : Option String) (cwd : String)
    (s : RefState) : Step RefState :=
  match path, perms with
  | none, none => apply_sandbox_xnu prim { s with unveil_locked := true }
  | some _, none => ⟨s, .einval, 0, 0, []⟩
  | none, some _ => ⟨s, .einval, 0, 0, []⟩
  | some p, some q =>
    if s.unveil_locked then ⟨s, .eperm, 0, 0, []⟩
    else if 256 ≤ s.paths.length then ⟨s, .enomem, 0, 0, []⟩
    else if !q.data.all (fun c => c == 'r' || c == 'w' || c == 'x' || c == 'c') then
      ⟨s, .einval, 0, 0, []⟩
    else
      let u : UnveilPath := ⟨resolvePath cwd p, strTrunc q 5⟩
      ⟨{ s with paths := s.paths ++ [u] }, .ok, 0, 0, []⟩

/-- Concatenation of a fragment list, in order. -/
def strJoin : List String → String
  | [] => ""
  | h :: t => h ++ strJoin t

/-- The contribution of one unveil rule to the profile: the four
conditional fragments in the fixed order r, w, x, c. -/
def ruleText (u : UnveilPath) : String :=
  (if strHasChar u.perms 'r' then readFrag u.path else "") ++
  (if strHasChar u.perms 'w' then writeFrag u.path else "") ++
  (if strHasChar u.perms 'x' then execFrag u.path else "") ++
  (if strHasChar u.perms 'c' then createFrag u.path else "")

/-- Condition under which the promise loop emits fragment `i` for the
inverted mask `m`. -/
def promiseSel (m : Nat) (i : Nat) : Bool :=
  !m.testBit i && !(kPledgeToSBPL i == "")

/-- The promise indices whose fragment is emitted for inverted mask `m`,
in the fixed enumeration order of the loop. -/
def selectedPromises (m : Nat) : List Nat :=
  (List.range PROMISE_LEN).filter (promiseSel m)

/-- Total length of all fragments in the promise table. -/
def fragTotal : Nat :=
  ((List.range PROMISE_LEN).map (fun i => (kPledgeToSBPL i).length)).sum

/-- Text of the pledge section as a function of the state. -/
def pledgeSectionText (s : RefState) : String :=
  if s.pledge_called then
    promisesComment ++ strJoin ((selectedPromises s.promises).map kPledgeToSBPL) ++ "\n"
  else allowDefaultText

/-- Text of the unveil section as a function of the state. -/
def unveilSectionText (s : RefState) : String :=
  if 0 < s.paths.length then unveilComment ++ strJoin (s.paths.map ruleText)
  else if s.unveil_locked then denyFsText else ""

/-- The allow-fragment the generator emits for permission `k` on path
`p`. -/
def permFrag : Char → String → String
  | 'r', p => readFrag p
  | 'w', p => writeFrag p
  | 'x', p => execFrag p
  | 'c', p => createFrag p
  | _, _ => ""

/-- Permission characters of a rule that produce fragments, in emission
order. -/
def permsOf (u : UnveilPath) : List Char :=
  (['r', 'w', 'x', 'c']).filter (fun k => strHasChar u.perms k)

/-- All (path, permission) pairs granted by the rule table, in emission
order. -/
def emittedGrants (ps : List UnveilPath) : List (String × Char) :=
  ps.flatMap (fun u => (permsOf u).map (fun k => (u.path, k)))

end Ref

/-- A path of 4095 characters (the longest storable in `char[PATH_MAX]`). -/
def bigPath : String := ⟨List.replicate 4095 'a'⟩

/-- A declared but not yet locked state holding one create-permission rule
on `bigPath`; its create fragment alone exceeds 16 KiB. -/
def bigState : Ref.RefState :=
  { promises := 2 ^ 64 - 1, pledge_called := false,
    paths := [⟨bigPath, "c"⟩], unveil_locked := false,
    sandbox_active := false, error_msg := none }

/-- The state reached from `bigState` by the lock sentinel's flag store. -/
def bigLocked : Ref.RefState :=
  { promises := 2 ^ 64 - 1, pledge_called := false,
    paths := [⟨bigPath, "c"⟩], unveil_locked := true,
    sandbox_active := false, error_msg := none }

/-- A platform primitive that accepts every profile. -/
def okPrimFun : PrimFun := fun _ => (0, none)

/-- A locked and already-applied reference state (AppliedAndFrozen). -/
def lockedActive : Ref.RefState :=
  { promises := 2 ^ 64 - 1, pledge_called := false, paths := [],
    unveil_locked := true, sandbox_active := true, error_msg := none }

/-- Reference state after declaring `/etc` read then `/etc` write and
locking, pledge never called. -/
def etcState : Ref.RefState :=
  { promises := 2 ^ 64 - 1, pledge_called := false,
    paths := [⟨"/etc", "r"⟩, ⟨"/etc", "w"⟩], unveil_locked := true,
    sandbox_active := false, error_msg := none }

/-- Profile generated from `etcState`. -/
def etcOut : String := (Ref.generate_sbpl_profile etcState).getD ""

/-- Reference state with only the stdio capability declared (inverted mask
with every bit except bit 0 set), locked with zero exposure rules. -/
def stdioOnly : Ref.RefState :=
  { promises := 2 ^ 64 - 2, pledge_called := true, paths := [],
    unveil_locked := true, sandbox_active := false, error_msg := none }

/-- Profile generated from `stdioOnly`. -/
def stdioOut : String := (Ref.generate_sbpl_profile stdioOnly).getD ""

/-- Profile generated from the initial reference state. -/
def initProfile : String := (Ref.generate_sbpl_profile Ref.initState).getD ""

/-! ### Helper lemmas about the generator -/

namespace Ref

theorem strJoin_length (L : List String) :
    (strJoin L).length = (L.map String.length).sum := by
  induction L with
  | nil => simp [strJoin]
  | cons h t ih => simp [strJoin, ih]

theorem strJoin_data (L : List String) :
    (strJoin L).data = (L.map String.data).flatten := by
  induction L with
  | nil => simp [strJoin]
  | cons h t ih => simp [strJoin, ih]

theorem checkedAppend_eq (o s : String) :
    checkedAppend o s
      = if SBPL_MAX_SIZE ≤ (o ++ s).length then none else some (o ++ s) := rfl

theorem checkedAppend_some {o s o2 : String} (h : checkedAppend o s = some o2) :
    o2 = o ++ s ∧ o2.length < SBPL_MAX_SIZE := by
  rw [checkedAppend_eq] at h
  split at h
  · exact Option.noConfusion h
  · rename_i hlt
    cases h
    exact ⟨rfl, by omega⟩

theorem checkedAppend_none_of_ge {o s : String}
    (h : SBPL_MAX_SIZE ≤ (o ++ s).length) : checkedAppend o s = none := by
  rw [checkedAppend_eq]
  exact if_pos h

theorem permStep_some {cond : Bool} {frag o a : String}
    (h : permStep cond frag o = some a) :
    a = o ++ (if cond then frag else "") ∧ (a.length < SBPL_MAX_SIZE ∨ a = o) := by
  unfold permStep at h
  cases cond with
  | false =>
    simp at h
    simp [← h]
  | true =>
    simp only [if_pos] at h ⊢
    have := checkedAppend_some h
    exact ⟨this.1, Or.inl this.2⟩

theorem ruleStep_some {o a : String} {u : UnveilPath}
    (h : ruleStep o u = some a) :
    a = o ++ ruleText u ∧ (a.length < SBPL_MAX_SIZE ∨ a = o) := by
  unfold ruleStep at h
  cases h1 : permStep (strHasChar u.perms 'r') (readFrag u.path) o with
  | none => rw [h1] at h; exact absurd h (by simp)
  | some a1 =>
    rw [h1, Option.some_bind] at h
    cases h2 : permStep (strHasChar u.perms 'w') (writeFrag u.path) a1 with
    | none => rw [h2] at h; exact absurd h (by simp)
    | some a2 =>
      rw [h2, Option.some_bind] at h
      cases h3 : permStep (strHasChar u.perms 'x') (execFrag u.path) a2 with
      | none => rw [h3] at h; exact absurd h (by simp)
      | some a3 =>
        rw [h3, Option.some_bind] at h
        obtain ⟨e1, b1⟩ := permStep_some h1
        obtain ⟨e2, b2⟩ := permStep_some h2
        obtain ⟨e3, b3⟩ := permStep_some h3
        obtain ⟨e4, b4⟩ := permStep_some h
        constructor
        · rw [e4, e3, e2, e1, ruleText]
          simp [String.append_assoc]
        · rcases b4 with hb | rfl
          · exact Or.inl hb
          rcases b3 with hb | rfl
          · exact Or.inl hb
          rcases b2 with hb | rfl
          · exact Or.inl hb
          exact b1

theorem ruleLoop_some {ps : List UnveilPath} :
    ∀ {o o2 : String}, ruleLoop ps o = some o2 →
      o2 = o ++ strJoin (ps.map ruleText) ∧ (o2.length < SBPL_MAX_SIZE ∨ o2 = o) := by
  induction ps with
  | nil =>
    intro o o2 h
    simp [ruleLoop, optFold] at h
    simp [← h, strJoin]
  | cons u t ih =>
    intro o o2 h
    simp only [ruleLoop, optFold] at h
    cases h1 : ruleStep o u with
    | none => rw [h1] at h; exact absurd h (by simp)
    | some a =>
      rw [h1] at h
      obtain ⟨e1, b1⟩ := ruleStep_some h1
      obtain ⟨e2, b2⟩ := ih h
      constructor
      · rw [e2, e1, List.map_cons, strJoin, String.append_assoc]
      · rcases b2 with hb | rfl
        · exact Or.inl hb
        rcases b1 with hb | rfl
        · exact Or.inl hb
        exact Or.inr rfl

theorem pledgeStep_some {m : Nat} {o a : String} {i : Nat}
    (h : pledgeStep m o i = some a) :
    a = o ++ (if promiseSel m i then kPledgeToSBPL i else "") := by
  unfold pledgeStep at h
  by_cases hc : promiseSel m i
  · rw [if_pos hc]
    unfold promiseSel at hc
    rw [if_pos hc] at h
    exact (checkedAppend_some h).1
  · rw [if_neg hc]
    unfold promiseSel at hc
    rw [if_neg hc] at h
    cases h
    simp

theorem pledgeFold_some {m : Nat} {l : List Nat} :
    ∀ {o o2 : String}, optFold (pledgeStep m) l o = some o2 →
      o2 = o ++ strJoin ((l.filter (promiseSel m)).map kPledgeToSBPL) := by
  induction l with
  | nil =>
    intro o o2 h
    simp only [optFold] at h
    cases h
    simp [strJoin]
  | cons i t ih =>
    intro o o2 h
    simp only [optFold] at h
    cases hps : pledgeStep m o i with
    | none => rw [hps] at h; exact Option.noConfusion h
    | some a =>
      rw [hps] at h
      have e1 := pledgeStep_some hps
      have e2 := ih h
      by_cases hc : promiseSel m i
      · rw [if_pos hc] at e1
        rw [e2, e1, List.filter_cons_of_pos hc, List.map_cons, strJoin,
          String.append_assoc]
      · rw [if_neg hc, String.append_empty] at e1
        rw [e2, e1, List.filter_cons_of_neg hc]

theorem sum_map_filter_le (p : α → Bool) (f : α → Nat) (l : List α) :
    ((l.filter p).map f).sum ≤ (l.map f).sum := by
  induction l with
  | nil => simp
  | cons a t ih =>
    by_cases hp : p a
    · rw [List.filter_cons_of_pos hp]
      simp only [List.map_cons, List.sum_cons]
      omega
    · rw [List.filter_cons_of_neg hp]
      simp only [List.map_cons, List.sum_cons]
      omega

theorem pledgePart_some {s : RefState} {o1 o3 : String}
    (h : pledgePart s o1 = some o3) :
    o3 = o1 ++ pledgeSectionText s ∧
      o3.length ≤ o1.length + (promisesComment.length + fragTotal + 1
        + allowDefaultText.length) := by
  unfold pledgePart at h
  by_cases hp : s.pledge_called
  · rw [if_pos hp] at h
    cases hpl : pledgeLoop s.promises (o1 ++ promisesComment) with
    | none => rw [hpl] at h; exact Option.noConfusion h
    | some o2 =>
      rw [hpl] at h
      cases h
      have e2 := pledgeFold_some (l := List.range PROMISE_LEN) hpl
      have hfl : (strJoin ((selectedPromises s.promises).map kPledgeToSBPL)).length
          ≤ fragTotal := by
        rw [strJoin_length, List.map_map]
        exact sum_map_filter_le (promiseSel s.promises)
          (fun i => (kPledgeToSBPL i).length) (List.range PROMISE_LEN)
      constructor
      · rw [e2, pledgeSectionText, if_pos hp, selectedPromises]
        simp [String.append_assoc]
      · rw [e2]
        simp only [String.length_append]
        have : ("\n" : String).length = 1 := rfl
        rw [selectedPromises] at *
        omega
  · rw [if_neg hp] at h
    cases h
    constructor
    · rw [pledgeSectionText, if_neg hp]
    · simp only [String.length_append]
      omega

/-- Master structure theorem for the generator: a successful run returns
exactly the header, the pledge section, and the unveil section. -/
theorem generate_some_structure {s : RefState} {out : String}
    (h : generate_sbpl_profile s = some out) :
    out = sbplHeader ++ pledgeSectionText s ++ unveilSectionText s := by
  unfold generate_sbpl_profile at h
  cases hca : checkedAppend "" sbplHeader with
  | none => rw [hca] at h; exact Option.noConfusion h
  | some o1 =>
    rw [hca] at h
    have e1 : o1 = sbplHeader := by
      have := (checkedAppend_some hca).1
      rwa [String.empty_append] at this
    subst e1
    dsimp only at h
    cases hpp : pledgePart s sbplHeader with
    | none => rw [hpp] at h; exact Option.noConfusion h
    | some o3 =>
      rw [hpp] at h
      dsimp only at h
      obtain ⟨e3, _⟩ := pledgePart_some hpp
      by_cases hnp : 0 < s.paths.length
      · rw [if_pos hnp] at h
        obtain ⟨e4, _⟩ := ruleLoop_some h
        rw [e4, e3, unveilSectionText, if_pos hnp]
        simp [String.append_assoc]
      · rw [if_neg hnp] at h
        by_cases hlk : s.unveil_locked
        · rw [if_pos hlk] at h
          cases h
          rw [e3, unveilSectionText, if_neg hnp, if_pos hlk, String.append_assoc]
        · rw [if_neg hlk] at h
          cases h
          rw [e3, unveilSectionText, if_neg hnp, if_neg hlk, String.append_empty]

theorem budget_lt :
    sbplHeader.length + (promisesComment.length + fragTotal + 1
      + allowDefaultText.length) + unveilComment.length + denyFsText.length
      < SBPL_MAX_SIZE := by decide

/-- Master bound theorem for the generator: a successful run never
returns text reaching the buffer size, i.e. the emitted profile is
complete and untruncated. -/
theorem generate_some_length {s : RefState} {out : String}
    (h : generate_sbpl_profile s = some out) : out.length < SBPL_MAX_SIZE := by
  unfold generate_sbpl_profile at h
  cases hca : checkedAppend "" sbplHeader with
  | none => rw [hca] at h; exact Option.noConfusion h
  | some o1 =>
    rw [hca] at h
    have e1 : o1 = sbplHeader := by
      have := (checkedAppend_some hca).1
      rwa [String.empty_append] at this
    subst e1
    dsimp only at h
    cases hpp : pledgePart s sbplHeader with
    | none => rw [hpp] at h; exact Option.noConfusion h
    | some o3 =>
      rw [hpp] at h
      dsimp only at h
      obtain ⟨-, hb3⟩ := pledgePart_some hpp
      have hbud := budget_lt
      by_cases hnp : 0 < s.paths.length
      · rw [if_pos hnp] at h
        obtain ⟨e4, b4⟩ := ruleLoop_some h
        rcases b4 with hlt | rfl
        · exact hlt
        · simp only [String.length_append]
          omega
      · rw [if_neg hnp] at h
        by_cases hlk : s.unveil_locked
        · rw [if_pos hlk] at h
          cases h
          simp only [String.length_append]
          omega
        · rw [if_neg hlk] at h
          cases h
          omega

theorem permStep_false {f o : String} : permStep false f o = some o := rfl

theorem permStep_true {f o : String} : permStep true f o = checkedAppend o f := rfl

theorem createFrag_length (p : String) :
    (createFrag p).length = 4 * p.length + (createFrag "").length := by
  simp only [createFrag, String.length_append, String.length_empty]
  omega

theorem strJoin_infix_of_mem {x : String} {L : List String} (hx : x ∈ L) :
    x.data <:+: (strJoin L).data := by
  induction L with
  | nil => cases hx
  | cons h t ih =>
    rcases List.mem_cons.mp hx with rfl | hx2
    · exact ⟨[], (strJoin t).data, by simp [strJoin]⟩
    · exact (ih hx2).trans ⟨h.data, [], by simp [strJoin]⟩

theorem permsOf_mem {u : UnveilPath} {k : Char} :
    k ∈ permsOf u
      ↔ (k = 'r' ∨ k = 'w' ∨ k = 'x' ∨ k = 'c') ∧ strHasChar u.perms k = true := by
  simp [permsOf, List.mem_filter]

theorem permFrag_infix_ruleText {u : UnveilPath} {k : Char} (hk : k ∈ permsOf u) :
    (permFrag k u.path).data <:+: (ruleText u).data := by
  rw [permsOf, List.mem_filter] at hk
  obtain ⟨hk1, hk2⟩ := hk
  simp only [List.mem_cons, List.not_mem_nil, or_false] at hk1
  rcases hk1 with rfl | rfl | rfl | rfl
  · refine ⟨[],
      ((if strHasChar u.perms 'w' then writeFrag u.path else "")
        ++ (if strHasChar u.perms 'x' then execFrag u.path else "")
        ++ (if strHasChar u.perms 'c' then createFrag u.path else "")).data, ?_⟩
    simp [ruleText, permFrag, hk2, List.append_assoc]
  · refine ⟨(if strHasChar u.perms 'r' then readFrag u.path else "").data,
      ((if strHasChar u.perms 'x' then execFrag u.path else "")
        ++ (if strHasChar u.perms 'c' then createFrag u.path else "")).data, ?_⟩
    simp [ruleText, permFrag, hk2, List.append_assoc]
  · refine ⟨((if strHasChar u.perms 'r' then readFrag u.path else "")
        ++ (if strHasChar u.perms 'w' then writeFrag u.path else "")).data,
      (if strHasChar u.perms 'c' then createFrag u.path else "").data, ?_⟩
    simp [ruleText, permFrag, hk2, List.append_assoc]
  · refine ⟨((if strHasChar u.perms 'r' then readFrag u.path else "")
        ++ (if strHasChar u.perms 'w' then writeFrag u.path else "")
        ++ (if strHasChar u.perms 'x' then execFrag u.path else "")).data, [], ?_⟩
    simp [ruleText, permFrag, hk2, List.append_assoc]

theorem emittedGrants_mem {ps : List UnveilPath} {p : String} {k : Char} :
    (p, k) ∈ emittedGrants ps ↔ ∃ u, u ∈ ps ∧ u.path = p ∧ k ∈ permsOf u := by
  simp only [emittedGrants, List.mem_flatMap, List.mem_map, Prod.mk.injEq]
  constructor
  · rintro ⟨u, hu, k2, hk2, he1, he2⟩
    exact ⟨u, hu, he1, he2 ▸ hk2⟩
  · rintro ⟨u, hu, he1, hk2⟩
    exact ⟨u, hu, k, hk2, he1, rfl⟩

theorem apply_applyCalls (prim : Prim) (s : RefState) :
    (apply_sandbox_xnu prim s).applyCalls = 1 := by
  unfold apply_sandbox_xnu
  cases prim with
  | none => rfl
  | some p =>
    by_cases ha : s.sandbox_active
    · simp [ha]
    · cases hg : generate_sbpl_profile s with
      | none => simp [ha, hg]
      | some prof =>
        by_cases hr : (p prof).1 = 0
        · simp [ha, hg, hr]
        · cases h2 : (p prof).2 <;> simp [ha, hg, hr, h2]

end Ref

theorem bigPath_length : bigPath.length = 4095 := by
  show (String.mk (List.replicate 4095 'a')).length = 4095
  rw [String.length_mk, List.length_replicate]

theorem generate_big_none : Ref.generate_sbpl_profile bigLocked = none := by
  have hca : Ref.checkedAppend "" Ref.sbplHeader = some Ref.sbplHeader := by decide
  have hpp : Ref.pledgePart bigLocked Ref.sbplHeader
      = some (Ref.sbplHeader ++ Ref.allowDefaultText) := by
    unfold Ref.pledgePart
    rw [if_neg (by decide)]
  have hlen : Ref.SBPL_MAX_SIZE ≤
      (((Ref.sbplHeader ++ Ref.allowDefaultText) ++ Ref.unveilComment)
        ++ Ref.createFrag bigPath).length := by
    have hcl := Ref.createFrag_length bigPath
    have hbp := bigPath_length
    have hc0 : 100 ≤ (Ref.createFrag "").length := by decide
    have hmax : Ref.SBPL_MAX_SIZE = 16384 := rfl
    simp only [String.length_append]
    omega
  have hrs : Ref.ruleStep ((Ref.sbplHeader ++ Ref.allowDefaultText) ++ Ref.unveilComment)
      (⟨bigPath, "c"⟩ : Ref.UnveilPath) = none := by
    unfold Ref.ruleStep
    have hr : strHasChar "c" 'r' = false := by decide
    have hw : strHasChar "c" 'w' = false := by decide
    have hx : strHasChar "c" 'x' = false := by decide
    have hc : strHasChar "c" 'c' = true := by decide
    rw [hr, hw, hx, hc, Ref.permStep_false, Option.some_bind, Ref.permStep_false,
      Option.some_bind, Ref.permStep_false, Option.some_bind, Ref.permStep_true]
    exact Ref.checkedAppend_none_of_ge hlen
  unfold Ref.generate_sbpl_profile
  rw [hca]
  dsimp only
  rw [hpp]
  dsimp only
  rw [if_pos (by decide : 0 < bigLocked.paths.length)]
  show Ref.optFold Ref.ruleStep bigLocked.paths _ = none
  have hps : bigLocked.paths = [⟨bigPath, "c"⟩] := rfl
  rw [hps]
  unfold Ref.optFold
  rw [hrs]

namespace Min

theorem generate_stdio_eq : generate_sbpl_stdio = some stdioProfileText := by decide

theorem apply_primCalls_le (prim : Prim) (s : MinState) :
    (apply_sandbox_xnu prim s).primCalls ≤ 1 := by
  unfold apply_sandbox_xnu
  cases prim with
  | none => simp
  | some p =>
    by_cases ha : s.sandbox_active
    · simp [ha]
    · by_cases hb : s.promises.testBit PROMISE_STDIO
      · simp [ha, hb]
      · by_cases hr : (p stdioProfileText).1 = 0 <;>
          simp [ha, hb, generate_stdio_eq, hr]

theorem apply_sandbox_fix {prim : Prim} {s : MinState}
    (h : (apply_sandbox_xnu prim s).res = SysRes.ok) :
    (apply_sandbox_xnu prim (apply_sandbox_xnu prim s).state).state
        = (apply_sandbox_xnu prim s).state
      ∧ (apply_sandbox_xnu prim (apply_sandbox_xnu prim s).state).res = SysRes.ok
      ∧ (apply_sandbox_xnu prim (apply_sandbox_xnu prim s).state).primCalls = 0 := by
  cases prim with
  | none => exact ⟨rfl, rfl, rfl⟩
  | some p =>
    by_cases ha : s.sandbox_active
    · simp [apply_sandbox_xnu, ha]
    · by_cases hb : s.promises.testBit PROMISE_STDIO
      · exfalso
        simp [apply_sandbox_xnu, ha, hb] at h
      · by_cases hr : (p stdioProfileText).1 = 0
        · simp [apply_sandbox_xnu, ha, hb, generate_stdio_eq, hr]
        · exfalso
          simp [apply_sandbox_xnu, ha, hb, generate_stdio_eq, hr] at h

theorem applyN_succ (prim : Prim) (n : Nat) (s : MinState) :
    applyN prim (n + 1) s =
      ((applyN prim n (apply_sandbox_xnu prim s).state).1,
       (apply_sandbox_xnu prim s).res
         :: (applyN prim n (apply_sandbox_xnu prim s).state).2.1,
       (apply_sandbox_xnu prim s).primCalls
         + (applyN prim n (apply_sandbox_xnu prim s).state).2.2) := rfl

theorem applyN_after_ok {prim : Prim} {s : MinState}
    (h : (apply_sandbox_xnu prim s).res = SysRes.ok) :
    ∀ n, applyN prim n (apply_sandbox_xnu prim s).state
      = ((apply_sandbox_xnu prim s).state, List.replicate n SysRes.ok, 0) := by
  intro n
  induction n with
  | zero => rfl
  | succ k ih =>
    obtain ⟨e1, e2, e3⟩ := apply_sandbox_fix h
    rw [applyN_succ, e1, ih, e2, e3]
    simp [List.replicate_succ]

end Min

/-! ### The claims -/

/-- C1: apply() (apply_sandbox_xnu) is idempotent: over any sequence of
`n + 2` invocations whose first call succeeds, the platform confinement
primitive is invoked at most once across the whole sequence (the first
call's count, which is at most 1, and nothing afterwards), every
invocation after the first returns the same successful result `ok`, and
the state after the whole sequence equals the state after the first
call. -/
theorem c1_apply_sandbox_xnu_idempotent (prim : Prim) (s : Min.MinState) (n : Nat)
    (h : (Min.apply_sandbox_xnu prim s).res = SysRes.ok) :
    Min.applyN prim (n + 2) s
      = ((Min.apply_sandbox_xnu prim s).state,
         SysRes.ok :: List.replicate (n + 1) SysRes.ok,
         (Min.apply_sandbox_xnu prim s).primCalls)
    ∧ (Min.apply_sandbox_xnu prim s).primCalls ≤ 1 := by
  refine ⟨?_, Min.apply_primCalls_le prim s⟩
  have hrec := Min.applyN_after_ok h (n + 1)
  rw [show n + 2 = (n + 1) + 1 from rfl, Min.applyN_succ, hrec]
  simp [h]

/-- C1 witness: with the primitive absent, the first call from the initial
state succeeds, and two invocations leave the state fixed with zero
primitive calls. -/
theorem c1_witness :
    Min.applyN none 2 Min.initState
      = (Min.initState, [SysRes.ok, SysRes.ok], 0) := by
  have := c1_apply_sandbox_xnu_idempotent none Min.initState 0 rfl
  simpa using this.1

/-- C2: profile generation is deterministic: for one fixed sandbox state,
two successful runs of the generator return byte-identical text of equal
length, and the text is a function of the state alone: the header, then
the pledge section with fragments in the fixed enumeration order of the
promise table, then the unveil section. -/
theorem c2_generation_deterministic (s1 s2 : Ref.RefState) (hs : s1 = s2)
    (o1 o2 : String)
    (h1 : Ref.generate_sbpl_profile s1 = some o1)
    (h2 : Ref.generate_sbpl_profile s2 = some o2) :
    o1 = o2 ∧ o1.length = o2.length
    ∧ o1 = Ref.sbplHeader ++ Ref.pledgeSectionText s1 ++ Ref.unveilSectionText s1 := by
  subst hs
  rw [h1] at h2
  cases h2
  exact ⟨rfl, rfl, Ref.generate_some_structure h1⟩

/-- C2 witness: the initial state generates successfully and both runs
agree. -/
theorem c2_witness :
    initProfile = initProfile ∧ initProfile.length = initProfile.length
    ∧ initProfile
      = Ref.sbplHeader ++ Ref.pledgeSectionText Ref.initState
        ++ Ref.unveilSectionText Ref.initState :=
  c2_generation_deterministic Ref.initState Ref.initState rfl initProfile initProfile
    (by decide) (by decide)

/-- C4: declareCapabilities (sys_pledge_xnu of the reference design),
invoked from a non-frozen state, stores the promise mask and the
pledge-called flag and then synchronously triggers apply() if and only if
unveil is already locked: when not locked the call returns success having
performed no apply and no platform side effect; when locked the call is
exactly one apply() on the stored state. -/
theorem c4_pledge_triggers_apply_iff_locked (prim : Prim) (ip : Nat)
    (s : Ref.RefState) (ha : s.sandbox_active = false) :
    (s.unveil_locked = false →
      Ref.sys_pledge_xnu prim ip s
        = ⟨{ s with promises := ip, pledge_called := true }, SysRes.ok, 0, 0, []⟩)
    ∧ (s.unveil_locked = true →
      Ref.sys_pledge_xnu prim ip s
        = Ref.apply_sandbox_xnu prim { s with promises := ip, pledge_called := true }
      ∧ (Ref.sys_pledge_xnu prim ip s).applyCalls = 1) := by
  constructor
  · intro hl
    unfold Ref.sys_pledge_xnu
    simp [ha, hl]
  · intro hl
    have he : Ref.sys_pledge_xnu prim ip s
        = Ref.apply_sandbox_xnu prim { s with promises := ip, pledge_called := true } := by
      unfold Ref.sys_pledge_xnu
      simp [ha, hl]
    exact ⟨he, by rw [he]; exact Ref.apply_applyCalls prim _⟩

/-- C4 witness: from the initial (unlocked) state, declaring capabilities
only stores them: no apply, no primitive call. -/
theorem c4_witness :
    Ref.sys_pledge_xnu (some okPrimFun) 0 Ref.initState
      = ⟨{ Ref.initState with promises := 0, pledge_called := true },
         SysRes.ok, 0, 0, []⟩ :=
  (c4_pledge_triggers_apply_iff_locked (some okPrimFun) 0 Ref.initState rfl).1 rfl

/-- C9: with the platform primitive absent at link time, capability
declaration (both the shipped minimal entry point and the reference one)
and the reference lock call all return success, apply() degrades to a
no-op that never invokes the primitive, the sandbox-active flag is never
set, and the log records the skip signal, never the applied signal. -/
theorem c9_primitive_absent_noop (ip : Nat) (cwd : String) (s : Min.MinState)
    (t : Ref.RefState) (ha : s.sandbox_active = false)
    (hb : t.sandbox_active = false) :
    (Min.sys_pledge_xnu none ip s).res = SysRes.ok
    ∧ (Min.sys_pledge_xnu none ip s).primCalls = 0
    ∧ (Min.sys_pledge_xnu none ip s).state.sandbox_active = false
    ∧ (Min.sys_pledge_xnu none ip s).log = [Trace.primUnavailable]
    ∧ Trace.applied ∉ (Min.sys_pledge_xnu none ip s).log
    ∧ (Ref.sys_pledge_xnu none ip t).res = SysRes.ok
    ∧ (Ref.sys_pledge_xnu none ip t).primCalls = 0
    ∧ (Ref.sys_pledge_xnu none ip t).state.sandbox_active = false
    ∧ (Ref.sys_unveil_xnu none none none cwd t).res = SysRes.ok
    ∧ (Ref.sys_unveil_xnu none none none cwd t).primCalls = 0
    ∧ (Ref.sys_unveil_xnu none none none cwd t).state.sandbox_active = false
    ∧ (Ref.sys_unveil_xnu none none none cwd t).log = [Trace.primUnavailable] := by
  have hmin : Min.sys_pledge_xnu none ip s
      = ⟨{ s with promises := ip, pledge_called := true }, SysRes.ok, 0, 1,
         [Trace.primUnavailable]⟩ := by
    unfold Min.sys_pledge_xnu Min.apply_sandbox_xnu
    simp [ha]
  have hunv : Ref.sys_unveil_xnu none none none cwd t
      = ⟨{ t with unveil_locked := true }, SysRes.ok, 0, 1,
         [Trace.primUnavailable]⟩ := rfl
  refine ⟨by rw [hmin], by rw [hmin], by rw [hmin]; exact ha, by rw [hmin],
    by rw [hmin]; simp, ?_, ?_, ?_,
    by rw [hunv], by rw [hunv], by rw [hunv]; exact hb, by rw [hunv]⟩
  all_goals
    unfold Ref.sys_pledge_xnu Ref.apply_sandbox_xnu
    by_cases hl : t.unveil_locked <;> simp [hb, hl, ha]

/-- C9 witness: concrete absent-primitive run from the initial states. -/
theorem c9_witness :
    (Min.sys_pledge_xnu none 0 Min.initState).res = SysRes.ok
    ∧ (Ref.sys_unveil_xnu none none none "" Ref.initState).log
      = [Trace.primUnavailable] := by
  have := c9_primitive_absent_noop 0 "" Min.initState Ref.initState rfl rfl
  exact ⟨this.1, this.2.2.2.2.2.2.2.2.2.2.2⟩

/-- C5: the profile is never silently truncated: every successful run of
the reference generator returns text strictly below the 16 KiB bound (so
the returned text is the complete document); when generation overflows the
bound it fails and apply returns CapacityError (ENOMEM) without ever
invoking the platform primitive; the minimal generator likewise only
succeeds with text below its 4096-byte bound. -/
theorem c5_profile_size_bounded :
    (∀ (s : Ref.RefState) (out : String),
      Ref.generate_sbpl_profile s = some out → out.length < Ref.SBPL_MAX_SIZE)
    ∧ (∀ (p : PrimFun) (s : Ref.RefState), s.sandbox_active = false →
        Ref.generate_sbpl_profile s = none →
        (Ref.apply_sandbox_xnu (some p) s).res = SysRes.enomem
        ∧ (Ref.apply_sandbox_xnu (some p) s).primCalls = 0)
    ∧ (∀ out : String,
        Min.generate_sbpl_stdio = some out → out.length < Min.SBPL_MAX_SIZE) := by
  refine ⟨fun s out h => Ref.generate_some_length h, fun p s ha hg => ?_, fun out h => ?_⟩
  · have happ : Ref.apply_sandbox_xnu (some p) s
        = ⟨s, SysRes.enomem, 0, 1, [Trace.profileTooLarge]⟩ := by
      unfold Ref.apply_sandbox_xnu
      dsimp only
      rw [if_neg (by simp [ha]), hg]
    rw [happ]
    exact ⟨rfl, rfl⟩
  · rw [Min.generate_stdio_eq] at h
    cases h
    decide

/-- C5 witness: the initial state generates successfully within the
bound. -/
theorem c5_witness : initProfile.length < Ref.SBPL_MAX_SIZE :=
  c5_profile_size_bounded.1 Ref.initState initProfile (by decide)

/-- C7: exposure-rule permissions are unioned, never restricted: for every
state whose generation succeeds and every path `p` and permission
character `k`, the generator emits the (p, k) allow-fragment exactly when
some rule names exactly path `p` with `k` among its permissions (the union
across all rules naming `p`), and every emitted grant's allow-fragment
occurs verbatim inside the generated profile. -/
theorem c7_unveil_grants_union (s : Ref.RefState) (out : String)
    (h : Ref.generate_sbpl_profile s = some out) (p : String) (k : Char) :
    ((p, k) ∈ Ref.emittedGrants s.paths
      ↔ ∃ u, u ∈ s.paths ∧ u.path = p ∧ k ∈ Ref.permsOf u)
    ∧ ((p, k) ∈ Ref.emittedGrants s.paths →
        (Ref.permFrag k p).data <:+: out.data) := by
  refine ⟨Ref.emittedGrants_mem, fun hmem => ?_⟩
  obtain ⟨u, hu, hpath, hkp⟩ := Ref.emittedGrants_mem.mp hmem
  have hlen : 0 < s.paths.length := List.length_pos.mpr (List.ne_nil_of_mem hu)
  have hstruct := Ref.generate_some_structure h
  rw [Ref.unveilSectionText, if_pos hlen] at hstruct
  rw [hstruct, ← hpath]
  have t1 := Ref.permFrag_infix_ruleText hkp
  have t2 := Ref.strJoin_infix_of_mem (List.mem_map_of_mem Ref.ruleText hu)
  refine (t1.trans t2).trans
    ⟨(Ref.sbplHeader ++ Ref.pledgeSectionText s ++ Ref.unveilComment).data, [], ?_⟩
  simp [List.append_assoc]

/-- C7 witness: declaring `/etc` read then `/etc` write and locking yields
a profile containing both the read fragment and the write fragment for
`/etc`. -/
theorem c7_witness :
    (Ref.readFrag "/etc").data <:+: etcOut.data
    ∧ (Ref.writeFrag "/etc").data <:+: etcOut.data :=
  ⟨(c7_unveil_grants_union etcState etcOut (by decide) "/etc" 'r').2 (by decide),
   (c7_unveil_grants_union etcState etcOut (by decide) "/etc" 'w').2 (by decide)⟩

/-- C8: locking with zero exposure rules never degrades to unrestricted
filesystem access: every successfully generated profile from a locked
state with an empty rule table ends with the explicit
deny-all-filesystem fragment, starts with the default-deny header, and,
when capabilities were declared, contains the fragment of every declared
(permitted, non-empty) capability. -/
theorem c8_locked_empty_denies_fs (s : Ref.RefState) (out : String)
    (hp : s.paths = []) (hl : s.unveil_locked = true)
    (h : Ref.generate_sbpl_profile s = some out) :
    Ref.sbplHeader.data <+: out.data
    ∧ Ref.denyFsText.data <:+ out.data
    ∧ (s.pledge_called = true → ∀ i, i < Ref.PROMISE_LEN →
        s.promises.testBit i = false → Ref.kPledgeToSBPL i ≠ "" →
        (Ref.kPledgeToSBPL i).data <:+: out.data) := by
  have hlen : ¬0 < s.paths.length := by rw [hp]; simp
  have hstruct := Ref.generate_some_structure h
  rw [Ref.unveilSectionText, if_neg hlen, if_pos hl] at hstruct
  subst hstruct
  refine ⟨⟨(Ref.pledgeSectionText s ++ Ref.denyFsText).data, by
      simp [List.append_assoc]⟩,
    ⟨(Ref.sbplHeader ++ Ref.pledgeSectionText s).data, by simp [List.append_assoc]⟩,
    fun hpc i hi hbit hne => ?_⟩
  have hsel : i ∈ Ref.selectedPromises s.promises := by
    rw [Ref.selectedPromises, List.mem_filter]
    refine ⟨List.mem_range.mpr hi, ?_⟩
    simp [Ref.promiseSel, hbit, hne]
  have t1 := Ref.strJoin_infix_of_mem
    (List.mem_map_of_mem Ref.kPledgeToSBPL hsel)
  have t2 : (Ref.strJoin ((Ref.selectedPromises s.promises).map Ref.kPledgeToSBPL)).data
      <:+: (Ref.sbplHeader ++ Ref.pledgeSectionText s ++ Ref.denyFsText).data := by
    rw [Ref.pledgeSectionText, if_pos hpc]
    exact ⟨(Ref.sbplHeader ++ Ref.promisesComment).data,
      (("\n" : String) ++ Ref.denyFsText).data, by simp [List.append_assoc]⟩
  exact t1.trans t2

/-- C8 witness: with only the stdio capability declared and unveil locked
with zero rules, the generated profile ends in the deny-filesystem
fragment and contains the stdio fragment; applying it with the primitive
present succeeds and freezes the sandbox (AppliedAndFrozen). -/
theorem c8_witness :
    Ref.denyFsText.data <:+ stdioOut.data
    ∧ (Ref.kPledgeToSBPL 0).data <:+: stdioOut.data
    ∧ (Ref.apply_sandbox_xnu (some okPrimFun) stdioOnly).state.sandbox_active = true
    ∧ (Ref.apply_sandbox_xnu (some okPrimFun) stdioOnly).res = SysRes.ok := by
  have hc8 := c8_locked_empty_denies_fs stdioOnly stdioOut rfl rfl (by decide)
  exact ⟨hc8.2.1, hc8.2.2 rfl 0 (by decide) (by decide) (by decide),
    by decide, by decide⟩

/-- C10: in the shipped minimal implementation, with the primitive linked
and the sandbox not yet active, any inverted promise mask whose stdio bit
is set (stdio not permitted) makes sys_pledge_xnu fail with ENOSYS and
never activates the sandbox, yet the promise mask has been overwritten and
the pledge-called flag set before the failure: the state is not
restored. -/
theorem c10_stdio_denied_enosys (p : PrimFun) (ip : Nat) (s : Min.MinState)
    (ha : s.sandbox_active = false) (hb : ip.testBit PROMISE_STDIO = true) :
    Min.sys_pledge_xnu (some p) ip s
      = ⟨{ promises := ip, pledge_called := true, sandbox_active := false },
         SysRes.enosys, 0, 1, [Trace.onlyStdioSupported]⟩ := by
  unfold Min.sys_pledge_xnu Min.apply_sandbox_xnu
  simp [ha, hb]

/-- C3 counterexample: the claim "declareExposure after the lock sentinel
fails with PermissionError for every argument pair including nil/nil" is
false: calling sys_unveil_xnu with (nil, nil) on a locked, already-applied
state returns success (it re-runs the lock path and apply short-circuits),
not PermissionError. -/
theorem c3_counterexample :
    (Ref.sys_unveil_xnu (some okPrimFun) none none "" lockedActive).res = SysRes.ok
    ∧ SysRes.ok ≠ SysRes.eperm := by
  exact ⟨rfl, by decide⟩

/-- C3 (amended): after the lock, declareExposure with both arguments
non-nil always fails with PermissionError regardless of the argument
values, and the state (every field) is unchanged; the nil cases are
handled earlier (nil/nil re-enters the lock path, mismatched nils are
InvalidArgumentError). -/
theorem c3_unveil_after_lock_eperm (prim : Prim) (p q cwd : String)
    (s : Ref.RefState) (h : s.unveil_locked = true) :
    Ref.sys_unveil_xnu prim (some p) (some q) cwd s
      = ⟨s, SysRes.eperm, 0, 0, []⟩ := by
  unfold Ref.sys_unveil_xnu
  simp [h]

/-- C3 witness: a declaration after the lock on the applied state fails
with EPERM leaving the state untouched. -/
theorem c3_witness :
    Ref.sys_unveil_xnu (some okPrimFun) (some "/etc") (some "r") "" lockedActive
      = ⟨lockedActive, SysRes.eperm, 0, 0, []⟩ :=
  c3_unveil_after_lock_eperm (some okPrimFun) "/etc" "r" "" lockedActive rfl

/-- C6 counterexample: the claim "a triggering call whose generation fails
with CapacityError leaves the state exactly as before, no field differs"
is false: the lock sentinel on a state holding one oversized rule sets the
lock flag before apply, generation then fails with CapacityError
(ENOMEM), and the lock flag remains set, so the state after the call
differs from the state before. -/
theorem c6_counterexample :
    (Ref.sys_unveil_xnu (some okPrimFun) none none "" bigState).res = SysRes.enomem
    ∧ (Ref.sys_unveil_xnu (some okPrimFun) none none "" bigState).state ≠ bigState := by
  have hupd : { bigState with unveil_locked := true } = bigLocked := rfl
  have hst : Ref.sys_unveil_xnu (some okPrimFun) none none "" bigState
      = ⟨bigLocked, SysRes.enomem, 0, 1, [Trace.profileTooLarge]⟩ := by
    show Ref.apply_sandbox_xnu (some okPrimFun) { bigState with unveil_locked := true } = _
    rw [hupd]
    unfold Ref.apply_sandbox_xnu
    dsimp only
    rw [if_neg (by decide : ¬bigLocked.sandbox_active = true), generate_big_none]
  rw [hst]
  refine ⟨rfl, fun hcontra => ?_⟩
  have hpr : bigLocked.unveil_locked = bigState.unveil_locked :=
    congrArg Ref.RefState.unveil_locked hcontra
  rw [show bigLocked.unveil_locked = true from rfl,
    show bigState.unveil_locked = false from rfl] at hpr
  exact Bool.noConfusion hpr

/-- C6 (amended): apply() itself is all-or-nothing: when profile
generation fails with CapacityError (ENOMEM), apply returns with the state
it received completely unchanged and the platform primitive is never
invoked; however the bookkeeping a triggering call performs before
invoking apply (here the lock flag set by the lock sentinel) persists and
is not rolled back. -/
theorem c6_generation_failure_preserves_state (p : PrimFun) (cwd : String)
    (s : Ref.RefState) (ha : s.sandbox_active = false)
    (hg : Ref.generate_sbpl_profile { s with unveil_locked := true } = none) :
    Ref.sys_unveil_xnu (some p) none none cwd s
      = ⟨{ s with unveil_locked := true }, SysRes.enomem, 0, 1,
         [Trace.profileTooLarge]⟩
    ∧ ∀ t : Ref.RefState, t.sandbox_active = false →
        Ref.generate_sbpl_profile t = none →
        Ref.apply_sandbox_xnu (some p) t
          = ⟨t, SysRes.enomem, 0, 1, [Trace.profileTooLarge]⟩ := by
  have happ : ∀ t : Ref.RefState, t.sandbox_active = false →
      Ref.generate_sbpl_profile t = none →
      Ref.apply_sandbox_xnu (some p) t
        = ⟨t, SysRes.enomem, 0, 1, [Trace.profileTooLarge]⟩ := by
    intro t hta htg
    unfold Ref.apply_sandbox_xnu
    dsimp only
    rw [if_neg (by simp [hta]), htg]
  refine ⟨?_, happ⟩
  show Ref.apply_sandbox_xnu (some p) { s with unveil_locked := true } = _
  exact happ _ (by simp [ha]) hg

/-- C6 witness: the oversized-rule state exercises the amended claim: the
lock sentinel fails with ENOMEM, no primitive call, and only the lock flag
(set before apply) differs. -/
theorem c6_witness :
    Ref.sys_unveil_xnu (some okPrimFun) none none "" bigState
      = ⟨{ bigState with unveil_locked := true }, SysRes.enomem, 0, 1,
         [Trace.profileTooLarge]⟩ :=
  (c6_generation_failure_preserves_state okPrimFun "" bigState rfl
    (by rw [show { bigState with unveil_locked := true } = bigLocked from rfl]
        exact generate_big_none)).1

/-- C10 witness: pledging the all-denied mask from the initial state with
the primitive present returns ENOSYS with the mask stored. -/
theorem c10_witness :
    Min.sys_pledge_xnu (some okPrimFun) (2 ^ 64 - 1) Min.initState
      = ⟨{ promises := 2 ^ 64 - 1, pledge_called := true, sandbox_active := false },
         SysRes.enosys, 0, 1, [Trace.onlyStdioSupported]⟩ :=
  c10_stdio_denied_enosys okPrimFun (2 ^ 64 - 1) Min.initState rfl (by decide)
